import Mathlib

/-!
Verification of the account-security core of the SPROJ-P08 backend (an
Express/MongoDB crop-diagnosis web application).  The definitions below are
shallow embeddings of the JavaScript route and model files:

* `Account` — the change-password route of `routes/account.js` together with
  its `PasswordSecurity` lockout helpers.
* `Auth` — the register-otp / verify-otp / login route variant of
  `routes/account.js` that keeps lockout state in the in-memory
  `failed_login_by_email` map and OTP state in the `SignupOtp` collection.
* `AuthP2` — the auth route variant that stores OTP and lockout state on the
  `User` document itself (bcrypt-hashed pending OTP, `failed_login_attempts`,
  `lock_until`).
* `Hist` — the change-password variant shipped next to
  `models/PasswordHistory.js`, whose `update_password` bcrypt-hashes the new
  password.
* `Help` — the in-memory per-key rate limiter of `routes/help.js`.

Timestamps are modelled as natural numbers of milliseconds (the value of
`Date.now()`); nullable `Date` fields as `Option Nat`.  Route handlers are
modelled from the point where request validation has succeeded, as explicit
state-passing functions on the records they read and write.
-/

namespace AgriSpec

/-- Math.ceil of the division `a / b` on naturals (used by the sources to
turn a positive millisecond difference into whole seconds). -/
def ceil_div (a b : Nat) : Nat := (a + b - 1) / b

/-- Math.round of the division `a / b` on naturals (round half up). -/
def round_div (a b : Nat) : Nat := (a + b / 2) / b

/-- Model of `bcrypt.hash(pw, cost)` from bcryptjs.  The digest itself is
abstracted: the claims depend only on the output format (a `$2b$`-prefixed
modular-crypt string, which real bcryptjs produces) and on whether a
hash/password pair matches, so the model records the cost and the preimage. -/
def bcrypt_hash (cost : Nat) (pw : String) : String :=
  "$2b$" ++ toString cost ++ "$" ++ pw

/-- Model of `bcrypt.compare(pw, hash)`: true exactly when the hash was
produced by `bcrypt_hash` from the same password at one of the cost factors
the repository uses (10 and 12).  Collisions are abstracted away. -/
def bcrypt_compare (pw h : String) : Bool :=
  h == bcrypt_hash 10 pw || h == bcrypt_hash 12 pw

/-- Model of JavaScript `s.startsWith(p)`. -/
def starts_with (s p : String) : Bool :=
  p.data.isPrefixOf s.data

/-- `routes/account.js` login: recognises a stored hash as a current-scheme
bcrypt hash by its modular-crypt prefix. -/
def looks_like_bcrypt (h : String) : Bool :=
  starts_with h "$2a$" || starts_with h "$2b$" || starts_with h "$2y$"

/-- JavaScript `a || b` on strings, where the empty string is falsy. -/
def js_or (a b : String) : String :=
  if a == "" then b else a

/-- Model of `Math.floor(100000 + Math.random() * 900000)`, the OTP code
generator used by both register-otp variants.  The draw of `Math.random()`
is represented exactly as the rational `a / b` with `a < b`, so the result
is `100000 + ⌊(a / b) * 900000⌋`. -/
def generate_otp_code (a b : Nat) : Nat :=
  100000 + a * 900000 / b

namespace Auth

/-- `parseInt(process.env.LOGIN_MAX_FAILED_ATTEMPTS || '5', 10)` at its
default. -/
def max_failed_attempts : Nat := 5

/-- `parseInt(process.env.LOGIN_LOCKOUT_MINUTES || '15', 10)` at its
default. -/
def lockout_minutes : Nat := 15

/-- One value of the in-memory `failed_login_by_email` map. -/
structure FailedRecord where
  failed_count : Nat
  locked_until : Option Nat
deriving DecidableEq

/-- The record `get_failed_record` creates when the map has no entry for the
email; also the effective state after `clear_failed_login` deletes the
entry. -/
def fresh_record : FailedRecord :=
  { failed_count := 0, locked_until := none }

/-- `get_lockout_seconds_remaining(record)`: 0 when there is no lock or the
lock lies in the past, otherwise the remaining time rounded up to whole
seconds. -/
def get_lockout_seconds_remaining (record : FailedRecord) (now : Nat) : Nat :=
  match record.locked_until with
  | none => 0
  | some t => if t ≤ now then 0 else ceil_div (t - now) 1000

/-- The `{is_locked, retry_after_seconds}` result shape of the lockout
helpers. -/
structure LockStatus where
  is_locked : Bool
  retry_after_seconds : Nat
deriving DecidableEq

/-- `is_email_locked(email)` for the record currently stored under the
normalized email. -/
def is_email_locked (record : FailedRecord) (now : Nat) : LockStatus :=
  let seconds_remaining := get_lockout_seconds_remaining record now
  if 0 < seconds_remaining then
    { is_locked := true, retry_after_seconds := seconds_remaining }
  else
    { is_locked := false, retry_after_seconds := 0 }

/-- `register_failed_login(email)`: no-op while a lock is active; otherwise
increments `failed_count` and, when the new count reaches
`max_failed_attempts`, sets `locked_until = now + lockout_minutes` minutes
and resets `failed_count` to 0.  Returns the updated record together with
the lock status reported to the caller. -/
def register_failed_login (record : FailedRecord) (now : Nat) :
    FailedRecord × LockStatus :=
  if 0 < get_lockout_seconds_remaining record now then
    (record,
     { is_locked := true,
       retry_after_seconds := get_lockout_seconds_remaining record now })
  else
    let record1 : FailedRecord :=
      { record with failed_count := record.failed_count + 1 }
    if max_failed_attempts ≤ record1.failed_count then
      let record2 : FailedRecord :=
        { failed_count := 0,
          locked_until := some (now + lockout_minutes * 60 * 1000) }
      (record2,
       { is_locked := true,
         retry_after_seconds := get_lockout_seconds_remaining record2 now })
    else
      (record1, { is_locked := false, retry_after_seconds := 0 })

/-- The `User` document as read and written by this route variant:
`password_hash` is the current-scheme field, `password` the legacy field. -/
structure StoredUser where
  name : String
  email : String
  phone : String
  role : String
  password_hash : Option String
  password : Option String
deriving DecidableEq

/-- `typeof f === 'string' && f.length > 0` on a nullable string field. -/
def nonempty_string : Option String → Option String
  | some s => if 0 < s.length then some s else none
  | none => none

/-- The `stored_hash` selection of the login route: `password_hash` when it
is a non-empty string, else the legacy `password` field when non-empty. -/
def stored_hash_of (u : StoredUser) : Option String :=
  match nonempty_string u.password_hash with
  | some h => some h
  | none => nonempty_string u.password

/-- Outcome of one `POST /login` request (after request validation). -/
inductive LoginResult where
  | unauthorized
  | locked (retryAfterSeconds : Nat) (retryAfterMinutes : Nat)
  | success
deriving DecidableEq

/-- One `POST /login` request of the `routes/account.js` variant, after
email-format and password-presence validation: lockout check, stored-hash
selection, bcrypt or legacy-equality comparison with self-healing rehash,
failure registration, and success reset.  Returns the response outcome, the
saved user document, and the new `failed_login_by_email` record. -/
def login_attempt (user : Option StoredUser) (password : String)
    (record : FailedRecord) (now : Nat) :
    LoginResult × Option StoredUser × FailedRecord :=
  let lock_status := is_email_locked record now
  if lock_status.is_locked then
    (.locked lock_status.retry_after_seconds
       (ceil_div lock_status.retry_after_seconds 60), user, record)
  else
    let checked : Bool × Option StoredUser :=
      match user with
      | none => (false, none)
      | some u =>
        match stored_hash_of u with
        | none => (false, some u)
        | some h =>
          if looks_like_bcrypt h then
            (bcrypt_compare password h, some u)
          else if h == password then
            (true, some { u with password_hash := some (bcrypt_hash 12 password),
                                 password := none })
          else
            (false, some u)
    if checked.1 then
      (.success, checked.2, fresh_record)
    else
      let after_failure := register_failed_login record now
      if after_failure.2.is_locked then
        (.locked after_failure.2.retry_after_seconds
           (ceil_div after_failure.2.retry_after_seconds 60),
         checked.2, after_failure.1)
      else
        (.unauthorized, checked.2, after_failure.1)

/-- One document of the `SignupOtp` collection: the staged profile and
credential, the stored OTP code (kept in plaintext by this variant), and its
expiry.  The schema declares `email` unique. -/
structure OtpRecord where
  name : String
  email : String
  phone : String
  role : String
  password_hash : String
  otp_code : String
  otp_expires_at : Nat
deriving DecidableEq

/-- `OtpModel.findOne({email})`. -/
def find_otp (otps : List OtpRecord) (email : String) : Option OtpRecord :=
  otps.find? (fun r => r.email == email)

/-- `OtpModel.deleteOne({_id: otp_record._id})` for the record found by
email; since the schema keys records uniquely by email this removes exactly
that record. -/
def delete_otp (otps : List OtpRecord) (email : String) : List OtpRecord :=
  otps.filter (fun r => !(r.email == email))

/-- `User.findOne({email})`. -/
def find_user (users : List StoredUser) (email : String) : Option StoredUser :=
  users.find? (fun u => u.email == email)

/-- The `SignupOtp` upsert of `findOneAndUpdate({email}, otp_payload,
{upsert: true})`: replaces the payload fields of the record with this email,
or inserts a new record. -/
def upsert_otp (otps : List OtpRecord) (rec : OtpRecord) : List OtpRecord :=
  match find_otp otps rec.email with
  | none => otps ++ [rec]
  | some _ => otps.map (fun r => if r.email == rec.email then rec else r)

/-- The user save of `POST /verify-otp`: creates a `User` from the staged
record, or overwrites the profile fields and `password_hash` of the existing
`User` with this email. -/
def upsert_user (users : List StoredUser) (rec : OtpRecord) :
    List StoredUser :=
  match find_user users rec.email with
  | none =>
    users ++ [{ name := rec.name, email := rec.email, phone := rec.phone,
                role := rec.role, password_hash := some rec.password_hash,
                password := none }]
  | some _ =>
    users.map (fun u =>
      if u.email == rec.email then
        { u with name := rec.name, phone := rec.phone, role := rec.role,
                 password_hash := some rec.password_hash }
      else u)

/-- The durable state touched by the register-otp / verify-otp routes of
this variant. -/
structure VerifyDb where
  otps : List OtpRecord
  users : List StoredUser
deriving DecidableEq

/-- Outcome of one `POST /verify-otp` request.  All three failure paths
(missing record, expired record, code mismatch) answer 400 with the same
message, `Invalid or expired verification code`. -/
inductive VerifyResult where
  | invalidOrExpired
  | success
deriving DecidableEq

/-- One `POST /verify-otp` request of the `routes/account.js` variant, after
format validation: record lookup by email, expiry check
(`otp_expires_at.getTime() < now.getTime()` with lazy deletion), plaintext
code comparison, then user upsert and record deletion on success. -/
def verify_otp (db : VerifyDb) (email otp_input : String) (now : Nat) :
    VerifyResult × VerifyDb :=
  match find_otp db.otps email with
  | none => (.invalidOrExpired, db)
  | some otp_record =>
    if otp_record.otp_expires_at < now then
      (.invalidOrExpired, { db with otps := delete_otp db.otps email })
    else if otp_record.otp_code != otp_input then
      (.invalidOrExpired, db)
    else
      (.success,
       { otps := delete_otp db.otps email,
         users := upsert_user db.users otp_record })

/-- Outcome of one `POST /register-otp` request of this variant. -/
inductive RegisterResult where
  | rejected (message : String)
  | ok (message : String)
deriving DecidableEq

/-- One `POST /register-otp` request of the `routes/account.js` variant,
after input validation, with the OTP code drawn by the caller: rejects when
a `User` with this email exists, otherwise upserts the staged `SignupOtp`
payload (plaintext `otp_code`, expiry `now` + 10 minutes) keyed by email. -/
def register_otp (db : VerifyDb) (name email phone role password : String)
    (otpNum : Nat) (now : Nat) : RegisterResult × VerifyDb :=
  match find_user db.users email with
  | some _ => (.rejected "An account with this email already exists", db)
  | none =>
    let otp_payload : OtpRecord :=
      { name := name, email := email, phone := phone, role := role,
        password_hash := bcrypt_hash 12 password,
        otp_code := toString otpNum,
        otp_expires_at := now + 10 * 60 * 1000 }
    (.ok "Verification code sent to your email address",
     { db with otps := upsert_otp db.otps otp_payload })

end Auth

namespace Account

/-- `MAX_FAILED_ATTEMPTS` of the change-password route. -/
def MAX_FAILED_ATTEMPTS : Nat := 5

/-- `LOCKOUT_MINUTES` of the change-password route. -/
def LOCKOUT_MINUTES : Nat := 15

/-- One `PasswordSecurity` document: the per-user password-change lockout
state. -/
structure SecurityState where
  failedAttempts : Nat
  lockUntil : Option Nat
  lastAttemptAt : Option Nat
deriving DecidableEq

/-- `check_lockout(security, now)`: locked with the remaining whole seconds
(rounded up) while `lockUntil` lies strictly in the future. -/
def check_lockout (security : SecurityState) (now : Nat) : Auth.LockStatus :=
  match security.lockUntil with
  | some t =>
    if now < t then
      { is_locked := true, retry_after_seconds := ceil_div (t - now) 1000 }
    else
      { is_locked := false, retry_after_seconds := 0 }
  | none => { is_locked := false, retry_after_seconds := 0 }

/-- `handle_failed_attempt(security, now, user)`: increments
`failedAttempts` and stamps `lastAttemptAt`; when the new count reaches
`MAX_FAILED_ATTEMPTS` it also sets `lockUntil = now + LOCKOUT_MINUTES`
minutes.  The incremented counter is saved as is. -/
def handle_failed_attempt (security : SecurityState) (now : Nat) :
    SecurityState :=
  let failedAttempts := security.failedAttempts + 1
  if MAX_FAILED_ATTEMPTS ≤ failedAttempts then
    { failedAttempts := failedAttempts,
      lockUntil := some (now + LOCKOUT_MINUTES * 60 * 1000),
      lastAttemptAt := some now }
  else
    { failedAttempts := failedAttempts,
      lockUntil := security.lockUntil,
      lastAttemptAt := some now }

/-- One `PasswordHistory` document. -/
structure HistoryEntry where
  passwordHash : String
  createdAt : Nat
deriving DecidableEq

/-- `update_password(user, new_password, current_hash, now)` of the
change-password variant embedded in `routes/account.js`: appends the current
hash to the history, then assigns the submitted `new_password` string to the
`password` field of the user document as is. -/
def update_password (user : Auth.StoredUser) (new_password : String)
    (current_hash : String) (now : Nat) :
    Auth.StoredUser × HistoryEntry :=
  ({ user with password := some new_password },
   { passwordHash := current_hash, createdAt := now })

end Account

namespace Hist

/-- `update_password(user, new_password, previous_hash, now)` of the
change-password variant shipped next to `models/PasswordHistory.js`: appends
the previous hash to the history when one exists, stores
`bcrypt.hash(new_password, 10)` in `password_hash`, and clears the legacy
`password` field. -/
def update_password (user : Auth.StoredUser) (new_password : String)
    (previous_hash : Option String) (now : Nat) :
    Auth.StoredUser × Option Account.HistoryEntry :=
  ({ user with password_hash := some (bcrypt_hash 10 new_password),
               password := none },
   previous_hash.map (fun h => { passwordHash := h, createdAt := now }))

end Hist

namespace AuthP2

/-- `LOGIN_MAX_FAILED_ATTEMPTS` at its default. -/
def LOGIN_MAX_FAILED_ATTEMPTS : Nat := 5

/-- `LOGIN_LOCKOUT_MINUTES` at its default. -/
def LOGIN_LOCKOUT_MINUTES : Nat := 15

/-- The `User` document of this variant, which carries the pending OTP and
the login lockout state itself.  `phone` is nullable; `role` defaults to
`farmer` at creation. -/
structure P2User where
  name : String
  email : String
  phone : Option String
  role : String
  password_hash : Option String
  password : Option String
  email_verified : Bool
  pending_otp_hash : Option String
  pending_otp_expires_at : Option Nat
  failed_login_attempts : Nat
  lock_until : Option Nat
deriving DecidableEq

/-- A nullable string field viewed through JavaScript truthiness: absent or
empty counts as falsy. -/
def truthy_string : Option String → Option String
  | some s => if s == "" then none else some s
  | none => none

/-- JavaScript `a || b` on nullable strings. -/
def js_or_opt (a b : Option String) : Option String :=
  match truthy_string a with
  | some s => some s
  | none => truthy_string b

/-- `getLockoutSeconds(lockUntil)`: 0 without an active lock, otherwise the
remaining time in seconds, rounded to the nearest second (`Math.round`). -/
def getLockoutSeconds (lockUntil : Option Nat) (now : Nat) : Nat :=
  match lockUntil with
  | none => 0
  | some t => if t ≤ now then 0 else round_div (t - now) 1000

/-- `user.lock_until && user.lock_until > now`. -/
def lock_active (lockUntil : Option Nat) (now : Nat) : Bool :=
  match lockUntil with
  | none => false
  | some t => now < t

/-- The wrong-password branch of `POST /login`: increments
`failed_login_attempts` and, when the new count reaches
`LOGIN_MAX_FAILED_ATTEMPTS`, sets `lock_until = now +
LOGIN_LOCKOUT_MINUTES` minutes.  The incremented counter is saved as is. -/
def record_login_failure (u : P2User) (now : Nat) : P2User :=
  let failed := u.failed_login_attempts + 1
  if LOGIN_MAX_FAILED_ATTEMPTS ≤ failed then
    { u with failed_login_attempts := failed,
             lock_until := some (now + LOGIN_LOCKOUT_MINUTES * 60 * 1000) }
  else
    { u with failed_login_attempts := failed }

/-- Outcome of one `POST /login` request of this variant. -/
inductive LoginP2Result where
  | unauthorized
  | locked (retryAfterSeconds : Nat)
  | success
deriving DecidableEq

/-- One `POST /login` request of this variant, after validation: user
lookup, lockout check on the user document, stored-hash selection
(`password_hash || password`), bcrypt comparison, failure recording with a
post-save lock check, and counter reset on success. -/
def login_p2 (user : Option P2User) (password : String) (now : Nat) :
    LoginP2Result × Option P2User :=
  match user with
  | none => (.unauthorized, none)
  | some u =>
    if lock_active u.lock_until now then
      (.locked (getLockoutSeconds u.lock_until now), some u)
    else
      match js_or_opt u.password_hash u.password with
      | none => (.unauthorized, some u)
      | some storedHash =>
        if bcrypt_compare password storedHash then
          (.success,
           some { u with failed_login_attempts := 0, lock_until := none })
        else
          let u1 := record_login_failure u now
          if lock_active u1.lock_until now then
            (.locked (getLockoutSeconds u1.lock_until now), some u1)
          else
            (.unauthorized, some u1)

/-- Outcome of one `POST /register-otp` request of this variant.  A success
body carries `ok: true`, the generic message, and (outside production) the
`debug_otp` field. -/
inductive RegisterOtpResult where
  | rejected (message : String)
  | accepted (message : String) (debug_otp : Option String)
deriving DecidableEq

/-- One `POST /register-otp` request of this variant, after validation, with
the OTP code drawn by the caller: rejects only when a `User` with this email
exists and is verified; otherwise creates or overwrites the staged user with
the bcrypt hash of the password, the bcrypt hash of the OTP, an expiry of
`now` + 10 minutes, and cleared lockout state, then answers the generic
success message, adding `debug_otp` when `NODE_ENV` differs from
`production`. -/
def register_otp_p2 (existing : Option P2User)
    (name email phone role password otp : String) (now : Nat)
    (node_env : String) : RegisterOtpResult × Option P2User :=
  match existing with
  | some u =>
    if u.email_verified then
      (.rejected "An account with this email already exists", some u)
    else
      (.accepted "Verification code has been sent to your email"
         (if node_env == "production" then none else some otp),
       some { u with
                name := name,
                phone := js_or_opt (some phone) u.phone,
                role := js_or (js_or role u.role) "farmer",
                password_hash := some (bcrypt_hash 10 password),
                email_verified := false,
                pending_otp_hash := some (bcrypt_hash 10 otp),
                pending_otp_expires_at := some (now + 10 * 60 * 1000),
                failed_login_attempts := 0,
                lock_until := none })
  | none =>
    (.accepted "Verification code has been sent to your email"
       (if node_env == "production" then none else some otp),
     some { name := name,
            email := email,
            phone := truthy_string (some phone),
            role := js_or role "farmer",
            password_hash := some (bcrypt_hash 10 password),
            password := none,
            email_verified := false,
            pending_otp_hash := some (bcrypt_hash 10 otp),
            pending_otp_expires_at := some (now + 10 * 60 * 1000),
            failed_login_attempts := 0,
            lock_until := none })

/-- Outcome of one `POST /verify-otp` request of this variant; the failure
constructors correspond to the three distinct 400 messages. -/
inductive VerifyP2Result where
  | invalidOrExpired
  | expired
  | mismatch
  | success
deriving DecidableEq

/-- One `POST /verify-otp` request of this variant, after validation:
missing user or pending fields answer the generic invalid message; an expiry
in the past or at this very instant (`pending_otp_expires_at <= now`)
answers expired; a bcrypt mismatch answers mismatch; otherwise the user is
marked verified and the pending OTP and lockout fields are cleared. -/
def verify_otp_p2 (user : Option P2User) (code : String) (now : Nat) :
    VerifyP2Result × Option P2User :=
  match user with
  | none => (.invalidOrExpired, none)
  | some u =>
    match u.pending_otp_hash, u.pending_otp_expires_at with
    | some otp_hash, some expires_at =>
      if expires_at ≤ now then
        (.expired, some u)
      else if !(bcrypt_compare code otp_hash) then
        (.mismatch, some u)
      else
        (.success,
         some { u with email_verified := true,
                       pending_otp_hash := none,
                       pending_otp_expires_at := none,
                       failed_login_attempts := 0,
                       lock_until := none })
    | _, _ => (.invalidOrExpired, some u)

end AuthP2

namespace Help

/-- `RATE_LIMIT_MAX_REQUESTS`: complaints allowed per window. -/
def RATE_LIMIT_MAX_REQUESTS : Nat := 5

/-- `RATE_LIMIT_WINDOW_MS`: 10 minutes. -/
def RATE_LIMIT_WINDOW_MS : Nat := 10 * 60 * 1000

/-- `RATE_LIMIT_BLOCK_MS`: 15 minutes of blocking after the limit. -/
def RATE_LIMIT_BLOCK_MS : Nat := 15 * 60 * 1000

/-- One value of the in-memory `rate_state` map; `blockedUntil = 0` means no
block. -/
structure RateState where
  count : Nat
  windowStart : Nat
  blockedUntil : Nat
deriving DecidableEq

/-- The `{blocked, retryAfterSeconds}` result of `check_rate_limit`. -/
structure RateResult where
  blocked : Bool
  retryAfterSeconds : Nat
deriving DecidableEq

/-- `check_rate_limit(user_id, ip)` of `routes/help.js` for the state stored
under the key (absent on first call): while `blockedUntil` is set and in the
future, deny with the remaining seconds; otherwise reset the window when
`now - windowStart > RATE_LIMIT_WINDOW_MS`, increment `count`, and when the
count exceeds `RATE_LIMIT_MAX_REQUESTS` set `blockedUntil = now +
RATE_LIMIT_BLOCK_MS` and deny with `RATE_LIMIT_BLOCK_MS` in seconds. -/
def check_rate_limit (st : Option RateState) (now : Nat) :
    RateResult × RateState :=
  let state := st.getD { count := 0, windowStart := now, blockedUntil := 0 }
  if state.blockedUntil ≠ 0 ∧ now < state.blockedUntil then
    ({ blocked := true,
       retryAfterSeconds :=
         max 1 (ceil_div (state.blockedUntil - now) 1000) }, state)
  else
    let state1 :=
      if RATE_LIMIT_WINDOW_MS < now - state.windowStart then
        { state with windowStart := now, count := 0 }
      else state
    let state2 := { state1 with count := state1.count + 1 }
    if RATE_LIMIT_MAX_REQUESTS < state2.count then
      let state3 := { state2 with blockedUntil := now + RATE_LIMIT_BLOCK_MS }
      ({ blocked := true,
         retryAfterSeconds := max 1 (ceil_div RATE_LIMIT_BLOCK_MS 1000) },
       state3)
    else
      ({ blocked := false, retryAfterSeconds := 0 }, state2)

end Help

/-! Concrete documents used by the scenario-style runs below. -/

/-- A verified account whose stored credential is the bcrypt hash of
`Abcd1234!` (Scenario B of the design notes). -/
def c1_user : Auth.StoredUser :=
  { name := "Farmer", email := "farmer@example.com", phone := "",
    role := "farmer", password_hash := some (bcrypt_hash 12 "Abcd1234!"),
    password := none }

/-- The saved user document and `failed_login_by_email` record after `n`
wrong-password login attempts against `c1_user`, all at time 0, starting
from a fresh record. -/
def c1_states : Nat → Option Auth.StoredUser × Auth.FailedRecord
  | 0 => (some c1_user, Auth.fresh_record)
  | n + 1 =>
    let step :=
      Auth.login_attempt (c1_states n).1 "WrongPass1!" (c1_states n).2 0
    (step.2.1, step.2.2)

/-- The response outcome of wrong-password login attempt `n + 1` of that
run. -/
def c1_result (n : Nat) : Auth.LoginResult :=
  (Auth.login_attempt (c1_states n).1 "WrongPass1!" (c1_states n).2 0).1

/-- A `SignupOtp` collection holding one pending registration whose OTP
expires at time 600000. -/
def c6_db : Auth.VerifyDb :=
  { otps := [{ name := "Farmer", email := "farmer@example.com", phone := "",
               role := "farmer",
               password_hash := bcrypt_hash 12 "Abcd1234!",
               otp_code := "482913", otp_expires_at := 600000 }],
    users := [] }

/-- A `SignupOtp` collection with one pending registration, used for the
replay run. -/
def c9_db : Auth.VerifyDb :=
  { otps := [{ name := "Farmer", email := "farmer@example.com", phone := "",
               role := "farmer",
               password_hash := bcrypt_hash 12 "Abcd1234!",
               otp_code := "482913", otp_expires_at := 600000 }],
    users := [] }

/-! Helper lemmas. -/

theorem starts_with_append (p s : String) : starts_with (p ++ s) p = true := by
  simp [starts_with, String.data_append, List.isPrefixOf_iff_prefix]

theorem looks_like_bcrypt_bcrypt_hash (cost : Nat) (pw : String) :
    looks_like_bcrypt (bcrypt_hash cost pw) = true := by
  have h : bcrypt_hash cost pw = "$2b$" ++ (toString cost ++ ("$" ++ pw)) := by
    simp [bcrypt_hash, String.append_assoc]
  simp [looks_like_bcrypt, h, starts_with_append]

theorem bcrypt_compare_hash10 (pw : String) :
    bcrypt_compare pw (bcrypt_hash 10 pw) = true := by
  simp [bcrypt_compare]

theorem bcrypt_compare_hash12 (pw : String) :
    bcrypt_compare pw (bcrypt_hash 12 pw) = true := by
  simp [bcrypt_compare]

theorem find_otp_delete (otps : List Auth.OtpRecord) (email : String) :
    Auth.find_otp (Auth.delete_otp otps email) email = none := by
  rw [Auth.find_otp, List.find?_eq_none]
  intro x hx
  rw [Auth.delete_otp, List.mem_filter] at hx
  simpa using hx.2

theorem find_otp_map_replace (otps : List Auth.OtpRecord)
    (rec : Auth.OtpRecord) :
    (Auth.find_otp otps rec.email).isSome = true →
    Auth.find_otp
        (otps.map (fun r => if r.email == rec.email then rec else r))
        rec.email = some rec := by
  induction otps with
  | nil => simp [Auth.find_otp]
  | cons a as ih =>
    intro hsome
    by_cases ha : a.email == rec.email
    · simp [Auth.find_otp, List.find?, ha]
    · simp only [Auth.find_otp, List.map_cons, List.find?] at *
      rw [if_neg (by simpa using ha)]
      simp only [ha, Bool.false_eq_true] at hsome ⊢
      exact ih (by simpa [ha] using hsome)

theorem find_otp_upsert (otps : List Auth.OtpRecord) (rec : Auth.OtpRecord) :
    Auth.find_otp (Auth.upsert_otp otps rec) rec.email = some rec := by
  rw [Auth.upsert_otp]
  cases hfind : Auth.find_otp otps rec.email with
  | none =>
    rw [Auth.find_otp, List.find?_append]
    rw [Auth.find_otp] at hfind
    simp [hfind, List.find?]
  | some r =>
    exact find_otp_map_replace otps rec (by simp [hfind])

theorem register_failed_login_below (r : Auth.FailedRecord) (now : Nat)
    (hopen : Auth.get_lockout_seconds_remaining r now = 0)
    (hk : r.failed_count + 1 < Auth.max_failed_attempts) :
    Auth.register_failed_login r now =
      ({ r with failed_count := r.failed_count + 1 },
       { is_locked := false, retry_after_seconds := 0 }) := by
  rw [Auth.register_failed_login]
  simp [hopen, Nat.not_le.mpr hk]

theorem register_failed_login_locks (r : Auth.FailedRecord) (now : Nat)
    (hopen : Auth.get_lockout_seconds_remaining r now = 0)
    (hk : Auth.max_failed_attempts ≤ r.failed_count + 1) :
    Auth.register_failed_login r now =
      ({ failed_count := 0, locked_until := some (now + 900000) },
       { is_locked := true, retry_after_seconds := 900 }) := by
  rw [Auth.register_failed_login]
  simp only [hopen, Nat.lt_irrefl, if_false]
  rw [if_pos (by simpa using hk)]
  have harith : Auth.lockout_minutes * 60 * 1000 = 900000 := by
    norm_num [Auth.lockout_minutes]
  rw [harith]
  have hlock : Auth.get_lockout_seconds_remaining
      ⟨0, some (now + 900000)⟩ now = 900 := by
    show (if now + 900000 ≤ now then 0
          else ceil_div (now + 900000 - now) 1000) = 900
    rw [if_neg (by omega)]
    have hd : now + 900000 - now = 900000 := by omega
    rw [hd]
    norm_num [ceil_div]
  simp [hlock]

theorem is_email_locked_open (r : Auth.FailedRecord) (now : Nat)
    (hopen : Auth.get_lockout_seconds_remaining r now = 0) :
    Auth.is_email_locked r now =
      { is_locked := false, retry_after_seconds := 0 } := by
  rw [Auth.is_email_locked]
  simp [hopen]

/-- C1: the claim is refuted on the concrete Scenario B run: five
consecutive wrong-password logins for the `c1_user` account give 401 on
attempts 1 through 4, while the fifth attempt is already answered 429 with
`retryAfterSeconds = 900`, not 401. -/
theorem C1_counterexample :
    c1_result 4 = Auth.LoginResult.locked 900 15 ∧
    c1_result 4 ≠ Auth.LoginResult.unauthorized ∧
    c1_result 0 = Auth.LoginResult.unauthorized ∧
    c1_result 1 = Auth.LoginResult.unauthorized ∧
    c1_result 2 = Auth.LoginResult.unauthorized ∧
    c1_result 3 = Auth.LoginResult.unauthorized := by
  decide

/-- C1 (amended): for every account whose stored credential is a
current-scheme bcrypt hash, starting from a fresh lockout record, wrong-
password login attempts 1 through 4 are answered 401; the 5th wrong attempt
itself sets the lock and is answered 429 with `retryAfterSeconds = 900`; and
the 6th attempt, even with the correct password, is answered 429 with the
remaining lock time while the lock is active. -/
theorem C1_lockout_schedule (u : Auth.StoredUser) (h pw_wrong pw_ok : String)
    (t t2 : Nat)
    (hstored : Auth.stored_hash_of u = some h)
    (hfmt : looks_like_bcrypt h = true)
    (hwrong : bcrypt_compare pw_wrong h = false)
    (hok : bcrypt_compare pw_ok h = true)
    (hle : t ≤ t2) (hlt : t2 < t + 900000) :
    (∀ k : Nat, k + 1 < 5 →
        Auth.login_attempt (some u) pw_wrong ⟨k, none⟩ t =
          (.unauthorized, some u, ⟨k + 1, none⟩)) ∧
    Auth.login_attempt (some u) pw_wrong ⟨4, none⟩ t =
      (.locked 900 15, some u, ⟨0, some (t + 900000)⟩) ∧
    (Auth.login_attempt (some u) pw_ok ⟨0, some (t + 900000)⟩ t2).1 =
      .locked (ceil_div (t + 900000 - t2) 1000)
        (ceil_div (ceil_div (t + 900000 - t2) 1000) 60) := by
  have hopen : ∀ k : Nat,
      Auth.get_lockout_seconds_remaining ⟨k, none⟩ t = 0 := by
    intro k
    rw [Auth.get_lockout_seconds_remaining]
  refine ⟨?_, ?_, ?_⟩
  · intro k hk
    rw [Auth.login_attempt]
    simp only [is_email_locked_open _ _ (hopen k)]
    simp only [hstored, hfmt, hwrong,
      register_failed_login_below ⟨k, none⟩ t (hopen k)
        (by simpa [Auth.max_failed_attempts] using hk)]
    simp
  · rw [Auth.login_attempt]
    simp only [is_email_locked_open _ _ (hopen 4)]
    simp only [hstored, hfmt, hwrong,
      register_failed_login_locks ⟨4, none⟩ t (hopen 4) (by decide)]
    simp [ceil_div]
  · have hsec : Auth.get_lockout_seconds_remaining ⟨0, some (t + 900000)⟩ t2 =
        ceil_div (t + 900000 - t2) 1000 := by
      rw [Auth.get_lockout_seconds_remaining]
      simp [Nat.not_le.mpr hlt]
    have hpos : 0 < ceil_div (t + 900000 - t2) 1000 := by
      rw [ceil_div]
      exact Nat.div_pos (by omega) (by norm_num)
    rw [Auth.login_attempt, Auth.is_email_locked]
    simp [hsec, hpos]

/-- Witness for `C1_lockout_schedule` on the concrete Scenario B account:
the 5th wrong attempt at time 0 locks until 900000 and is answered 429/900;
a correct-password attempt at time 1000 is answered 429 with the remaining
899 seconds. -/
theorem C1_lockout_schedule_witness :
    Auth.login_attempt (some c1_user) "WrongPass1!" ⟨4, none⟩ 0 =
      (.locked 900 15, some c1_user, ⟨0, some 900000⟩) ∧
    (Auth.login_attempt (some c1_user) "Abcd1234!" ⟨0, some 900000⟩ 1000).1 =
      .locked 899 15 := by
  have h := C1_lockout_schedule c1_user (bcrypt_hash 12 "Abcd1234!")
      "WrongPass1!" "Abcd1234!" 0 1000 (by decide) (by decide) (by decide)
      (by decide) (by decide) (by decide)
  refine ⟨by simpa using h.2.1, ?_⟩
  have h3 := h.2.2
  norm_num [ceil_div] at h3
  simpa using h3

/-- C5: the claim is refuted on the password-change tracker: recording a
failure on a state with 4 prior failures locks the account but leaves
`failedAttempts` at 5 instead of resetting it to 0. -/
theorem C5_counterexample :
    Account.handle_failed_attempt ⟨4, none, none⟩ 0 =
      ⟨5, some 900000, some 0⟩ ∧
    (Account.handle_failed_attempt ⟨4, none, none⟩ 0).failedAttempts ≠ 0 := by
  decide

/-- C5 (amended): every failure recorder increments its counter and sets a
15-minute lock when the new count reaches 5, but only the in-memory login
tracker `register_failed_login` resets the counter to 0 at that point; the
password-change tracker `handle_failed_attempt` and the on-document login
tracker of the `AuthP2` variant keep the incremented counter. -/
theorem C5_record_failure_behaviour :
    (∀ (r : Auth.FailedRecord) (now : Nat),
        Auth.get_lockout_seconds_remaining r now = 0 →
        r.failed_count + 1 < Auth.max_failed_attempts →
        Auth.register_failed_login r now =
          ({ r with failed_count := r.failed_count + 1 },
           { is_locked := false, retry_after_seconds := 0 })) ∧
    (∀ (r : Auth.FailedRecord) (now : Nat),
        Auth.get_lockout_seconds_remaining r now = 0 →
        Auth.max_failed_attempts ≤ r.failed_count + 1 →
        Auth.register_failed_login r now =
          ({ failed_count := 0, locked_until := some (now + 900000) },
           { is_locked := true, retry_after_seconds := 900 })) ∧
    (∀ (s : Account.SecurityState) (now : Nat),
        s.failedAttempts + 1 < Account.MAX_FAILED_ATTEMPTS →
        Account.handle_failed_attempt s now =
          ⟨s.failedAttempts + 1, s.lockUntil, some now⟩) ∧
    (∀ (s : Account.SecurityState) (now : Nat),
        Account.MAX_FAILED_ATTEMPTS ≤ s.failedAttempts + 1 →
        Account.handle_failed_attempt s now =
          ⟨s.failedAttempts + 1, some (now + 900000), some now⟩) ∧
    (∀ (u : AuthP2.P2User) (now : Nat),
        AuthP2.LOGIN_MAX_FAILED_ATTEMPTS ≤ u.failed_login_attempts + 1 →
        AuthP2.record_login_failure u now =
          { u with failed_login_attempts := u.failed_login_attempts + 1,
                   lock_until := some (now + 900000) }) := by
  refine ⟨register_failed_login_below, register_failed_login_locks, ?_, ?_, ?_⟩
  · intro s now hk
    rw [Account.handle_failed_attempt]
    simp [Nat.not_le.mpr hk]
  · intro s now hk
    rw [Account.handle_failed_attempt]
    simp only [if_pos hk]
    norm_num [Account.LOCKOUT_MINUTES]
  · intro u now hk
    rw [AuthP2.record_login_failure]
    simp only [if_pos hk]
    norm_num [AuthP2.LOGIN_LOCKOUT_MINUTES]

/-- Witness for `C5_record_failure_behaviour` at concrete states with 4
prior failures, recorded at time 0. -/
theorem C5_record_failure_behaviour_witness :
    Auth.register_failed_login ⟨4, none⟩ 0 =
      (⟨0, some 900000⟩, ⟨true, 900⟩) ∧
    Account.handle_failed_attempt ⟨4, none, none⟩ 0 =
      ⟨5, some 900000, some 0⟩ ∧
    AuthP2.record_login_failure
        { name := "Farmer", email := "farmer@example.com", phone := none,
          role := "farmer",
          password_hash := some (bcrypt_hash 10 "Abcd1234!"),
          password := none, email_verified := true,
          pending_otp_hash := none, pending_otp_expires_at := none,
          failed_login_attempts := 4, lock_until := none } 0 =
      { name := "Farmer", email := "farmer@example.com", phone := none,
        role := "farmer",
        password_hash := some (bcrypt_hash 10 "Abcd1234!"),
        password := none, email_verified := true,
        pending_otp_hash := none, pending_otp_expires_at := none,
        failed_login_attempts := 5, lock_until := some 900000 } := by
  refine ⟨?_, ?_, ?_⟩
  · exact C5_record_failure_behaviour.2.1 ⟨4, none⟩ 0 (by decide) (by decide)
  · exact C5_record_failure_behaviour.2.2.2.1 ⟨4, none, none⟩ 0 (by decide)
  · exact C5_record_failure_behaviour.2.2.2.2 _ 0 (by decide)

/-- C2: the claim is refuted on the generator: the smallest possible draw
(`Math.random()` returning 0, here 0/1000000) yields the code 100000, and no
draw at all can yield a code below 100000, so the full range 000000 to
999999 is not covered and a leading zero can never occur. -/
theorem C2_counterexample :
    generate_otp_code 0 1000000 = 100000 ∧
    ¬ ∃ a b : Nat, a < b ∧ generate_otp_code a b < 100000 := by
  refine ⟨by norm_num [generate_otp_code], ?_⟩
  rintro ⟨a, b, -, hlt⟩
  exact absurd hlt (Nat.not_lt.mpr (Nat.le_add_right _ _))

/-- C2 (amended): the OTP issuer draws a uniform 6-digit code from 100000 to
999999 (a leading zero never occurs).  The `AuthP2` variant stores the
bcrypt hash of the code, not the plaintext, with expiry `now` + 10 minutes
on the user record keyed by email, replacing any prior pending fields; the
`Auth` (`SignupOtp`) variant upserts the record keyed by email with the same
expiry but keeps the code in plaintext. -/
theorem C2_otp_issue :
    (∀ a b : Nat, 0 < b → a < b →
        100000 ≤ generate_otp_code a b ∧ generate_otp_code a b ≤ 999999) ∧
    (∀ (u : AuthP2.P2User) (name email phone role password otp : String)
        (now : Nat) (env : String), u.email_verified = false →
        ∃ u1, (AuthP2.register_otp_p2 (some u) name email phone role password
                  otp now env).2 = some u1 ∧
          u1.pending_otp_hash = some (bcrypt_hash 10 otp) ∧
          u1.pending_otp_expires_at = some (now + 600000)) ∧
    (∀ (db : Auth.VerifyDb) (name email phone role password : String)
        (otpNum now : Nat), Auth.find_user db.users email = none →
        Auth.find_otp
            (Auth.register_otp db name email phone role password
              otpNum now).2.otps email =
          some { name := name, email := email, phone := phone, role := role,
                 password_hash := bcrypt_hash 12 password,
                 otp_code := toString otpNum,
                 otp_expires_at := now + 600000 }) := by
  refine ⟨?_, ?_, ?_⟩
  · intro a b hb hab
    constructor
    · exact Nat.le_add_right _ _
    · have hq : a * 900000 / b < 900000 := by
        rw [Nat.div_lt_iff_lt_mul hb]
        calc a * 900000 < b * 900000 :=
              (Nat.mul_lt_mul_right (by norm_num)).mpr hab
          _ = 900000 * b := Nat.mul_comm _ _
      rw [generate_otp_code]
      omega
  · intro u name email phone role password otp now env hunv
    rw [AuthP2.register_otp_p2]
    simp [hunv]
  · intro db name email phone role password otpNum now hnone
    rw [Auth.register_otp]
    rw [hnone]
    simpa using find_otp_upsert db.otps
      { name := name, email := email, phone := phone, role := role,
        password_hash := bcrypt_hash 12 password,
        otp_code := toString otpNum,
        otp_expires_at := now + 10 * 60 * 1000 }

/-- Witness for `C2_otp_issue`: the draw 1/2 gives the in-range code 550000;
a concrete unverified staged user gets the hashed OTP with expiry 600000;
the empty database gets the plaintext `SignupOtp` payload. -/
theorem C2_otp_issue_witness :
    (100000 ≤ generate_otp_code 1 2 ∧ generate_otp_code 1 2 ≤ 999999) ∧
    (∃ u1, (AuthP2.register_otp_p2
        (some { name := "Old", email := "farmer@example.com", phone := none,
                role := "farmer", password_hash := none, password := none,
                email_verified := false,
                pending_otp_hash := some (bcrypt_hash 10 "111111"),
                pending_otp_expires_at := some 50,
                failed_login_attempts := 0, lock_until := none })
        "Farmer" "farmer@example.com" "" "farmer" "Abcd1234!" "482913" 0
        "test").2 = some u1 ∧
      u1.pending_otp_hash = some (bcrypt_hash 10 "482913") ∧
      u1.pending_otp_expires_at = some 600000) ∧
    Auth.find_otp
        (Auth.register_otp ⟨[], []⟩ "Farmer" "farmer@example.com" ""
          "farmer" "Abcd1234!" 482913 0).2.otps "farmer@example.com" =
      some { name := "Farmer", email := "farmer@example.com", phone := "",
             role := "farmer", password_hash := bcrypt_hash 12 "Abcd1234!",
             otp_code := toString 482913, otp_expires_at := 600000 } := by
  refine ⟨C2_otp_issue.1 1 2 (by decide) (by decide), ?_, ?_⟩
  · have h := C2_otp_issue.2.1
      { name := "Old", email := "farmer@example.com", phone := none,
        role := "farmer", password_hash := none, password := none,
        email_verified := false,
        pending_otp_hash := some (bcrypt_hash 10 "111111"),
        pending_otp_expires_at := some 50,
        failed_login_attempts := 0, lock_until := none }
      "Farmer" "farmer@example.com" "" "farmer" "Abcd1234!" "482913" 0
      "test" rfl
    simpa using h
  · have h := C2_otp_issue.2.2 ⟨[], []⟩ "Farmer" "farmer@example.com" ""
      "farmer" "Abcd1234!" 482913 0 rfl
    simpa using h

/-- C3: in the `AuthP2` register-otp variant a request is rejected exactly
when a verified account with the email exists, an existing unverified
account produces the same response as a fresh email, and in the `Auth`
(`SignupOtp`) variant rejection happens exactly when a `User` document (only
ever created by OTP confirmation) exists, with a response that does not
depend on any pending registration record. -/
theorem C3_registration_enumeration :
    (∀ (u : AuthP2.P2User) (name email phone role password otp : String)
        (now : Nat) (env : String),
        ((AuthP2.register_otp_p2 (some u) name email phone role password otp
            now env).1 =
          .rejected "An account with this email already exists")
          ↔ u.email_verified = true) ∧
    (∀ (u : AuthP2.P2User) (name email phone role password otp : String)
        (now : Nat) (env : String), u.email_verified = false →
        (AuthP2.register_otp_p2 (some u) name email phone role password otp
            now env).1 =
          (AuthP2.register_otp_p2 none name email phone role password otp
            now env).1) ∧
    (∀ (db : Auth.VerifyDb) (name email phone role password : String)
        (otpNum now : Nat),
        ((Auth.register_otp db name email phone role password otpNum now).1 =
          .rejected "An account with this email already exists")
          ↔ (Auth.find_user db.users email).isSome = true) ∧
    (∀ (db : Auth.VerifyDb) (name email phone role password : String)
        (otpNum now : Nat), Auth.find_user db.users email = none →
        (Auth.register_otp db name email phone role password otpNum now).1 =
          .ok "Verification code sent to your email address") := by
  refine ⟨?_, ?_, ?_, ?_⟩
  · intro u name email phone role password otp now env
    rw [AuthP2.register_otp_p2]
    cases hv : u.email_verified <;> simp [hv]
  · intro u name email phone role password otp now env hunv
    rw [AuthP2.register_otp_p2, AuthP2.register_otp_p2]
    simp [hunv]
  · intro db name email phone role password otpNum now
    rw [Auth.register_otp]
    cases hfind : Auth.find_user db.users email <;> simp [hfind]
  · intro db name email phone role password otpNum now hnone
    rw [Auth.register_otp, hnone]

/-- Witness for `C3_registration_enumeration` on concrete records: a
verified account is rejected, an unverified staged account gets the same
response as a fresh email, and the empty database gets the generic success
message. -/
theorem C3_registration_enumeration_witness :
    (AuthP2.register_otp_p2
        (some { name := "Old", email := "farmer@example.com", phone := none,
                role := "farmer",
                password_hash := some (bcrypt_hash 10 "Abcd1234!"),
                password := none, email_verified := true,
                pending_otp_hash := none, pending_otp_expires_at := none,
                failed_login_attempts := 0, lock_until := none })
        "Farmer" "farmer@example.com" "" "farmer" "Abcd1234!" "482913" 0
        "test").1 =
      .rejected "An account with this email already exists" ∧
    (AuthP2.register_otp_p2
        (some { name := "Old", email := "farmer@example.com", phone := none,
                role := "farmer",
                password_hash := some (bcrypt_hash 10 "Abcd1234!"),
                password := none, email_verified := false,
                pending_otp_hash := some (bcrypt_hash 10 "111111"),
                pending_otp_expires_at := some 50,
                failed_login_attempts := 0, lock_until := none })
        "Farmer" "farmer@example.com" "" "farmer" "Abcd1234!" "482913" 0
        "test").1 =
      (AuthP2.register_otp_p2 none "Farmer" "farmer@example.com" "" "farmer"
        "Abcd1234!" "482913" 0 "test").1 ∧
    (Auth.register_otp ⟨[], []⟩ "Farmer" "farmer@example.com" "" "farmer"
        "Abcd1234!" 482913 0).1 =
      .ok "Verification code sent to your email address" := by
  refine ⟨?_, ?_, ?_⟩
  · exact (C3_registration_enumeration.1 _ "Farmer" "farmer@example.com" ""
      "farmer" "Abcd1234!" "482913" 0 "test").mpr rfl
  · exact C3_registration_enumeration.2.1 _ "Farmer" "farmer@example.com" ""
      "farmer" "Abcd1234!" "482913" 0 "test" rfl
  · exact C3_registration_enumeration.2.2.2 ⟨[], []⟩ "Farmer"
      "farmer@example.com" "" "farmer" "Abcd1234!" 482913 0 rfl

/-- C4: the change-password variant embedded in `routes/account.js` stores
the submitted new password string itself in the `password` field (no hash is
applied, so the stored credential equals the plaintext), while the variant
next to `models/PasswordHistory.js` stores the bcrypt hash of the new
password in `password_hash` and clears the legacy `password` field; the
bcrypt hash never equals the plaintext. -/
theorem C4_update_password_variants (user : Auth.StoredUser)
    (new_password current_hash : String) (now : Nat) :
    (Account.update_password user new_password current_hash now).1.password =
      some new_password ∧
    (Hist.update_password user new_password (some current_hash)
        now).1.password_hash = some (bcrypt_hash 10 new_password) ∧
    (Hist.update_password user new_password (some current_hash)
        now).1.password = none ∧
    bcrypt_hash 10 new_password ≠ new_password := by
  refine ⟨rfl, rfl, rfl, ?_⟩
  intro hcontra
  have hlen := congrArg String.length hcontra
  rw [bcrypt_hash, String.length_append, String.length_append,
    String.length_append] at hlen
  have h1 : "$2b$".length = 4 := rfl
  have h2 : (toString (10 : Nat)).length = 2 := rfl
  have h3 : "$".length = 1 := rfl
  omega

/-- C6: the claim is refuted on the `Auth` (`SignupOtp`) verify variant: a
verification attempt made exactly at the stored expiry instant (600000) with
the correct code succeeds instead of failing as expired, because that
variant only rejects when the expiry is strictly in the past. -/
theorem C6_counterexample :
    (Auth.verify_otp c6_db "farmer@example.com" "482913" 600000).1 =
      Auth.VerifyResult.success ∧
    (Auth.verify_otp c6_db "farmer@example.com" "482913" 600000).1 ≠
      Auth.VerifyResult.invalidOrExpired := by
  decide

/-- C6 (amended): the expiry boundary differs between the two verify
variants: the `AuthP2` variant is inclusive (verification fails as expired
whenever `now >= otp_expiry`), while the `Auth` (`SignupOtp`) variant is
exclusive (it only fails when `now > otp_expiry`, so a correct code
submitted exactly at the expiry instant still succeeds). -/
theorem C6_expiry_boundary :
    (∀ (u : AuthP2.P2User) (code : String) (now : Nat) (h : String)
        (t : Nat),
        u.pending_otp_hash = some h → u.pending_otp_expires_at = some t →
        t ≤ now →
        AuthP2.verify_otp_p2 (some u) code now = (.expired, some u)) ∧
    (∀ (db : Auth.VerifyDb) (email code : String) (now : Nat)
        (rec : Auth.OtpRecord),
        Auth.find_otp db.otps email = some rec →
        rec.otp_expires_at = now → rec.otp_code = code →
        (Auth.verify_otp db email code now).1 = .success) := by
  constructor
  · intro u code now h t hhash hexp hle
    rw [AuthP2.verify_otp_p2, hhash, hexp]
    simp [hle]
  · intro db email code now rec hfind hexp hcode
    rw [Auth.verify_otp, hfind]
    have h1 : ¬ (rec.otp_expires_at < now) := by omega
    simp [h1, hcode]

/-- Witness for `C6_expiry_boundary`: a staged `AuthP2` user whose OTP
expires at 600000 is rejected as expired at exactly 600000, while the
concrete `SignupOtp` database accepts the correct code at exactly its
expiry. -/
theorem C6_expiry_boundary_witness :
    AuthP2.verify_otp_p2
        (some { name := "Farmer", email := "farmer@example.com",
                phone := none, role := "farmer",
                password_hash := some (bcrypt_hash 10 "Abcd1234!"),
                password := none, email_verified := false,
                pending_otp_hash := some (bcrypt_hash 10 "482913"),
                pending_otp_expires_at := some 600000,
                failed_login_attempts := 0, lock_until := none })
        "482913" 600000 =
      (.expired,
       some { name := "Farmer", email := "farmer@example.com",
              phone := none, role := "farmer",
              password_hash := some (bcrypt_hash 10 "Abcd1234!"),
              password := none, email_verified := false,
              pending_otp_hash := some (bcrypt_hash 10 "482913"),
              pending_otp_expires_at := some 600000,
              failed_login_attempts := 0, lock_until := none }) ∧
    (Auth.verify_otp c6_db "farmer@example.com" "482913" 600000).1 =
      Auth.VerifyResult.success := by
  constructor
  · exact C6_expiry_boundary.1 _ "482913" 600000 (bcrypt_hash 10 "482913")
      600000 rfl rfl (by decide)
  · exact C6_expiry_boundary.2 c6_db "farmer@example.com" "482913" 600000 _
      rfl rfl rfl

/-- C7: when the stored credential is in a legacy (non-bcrypt) format and
the submitted password matches it, the login succeeds, the saved user
document carries the current-scheme bcrypt hash of the password in
`password_hash`, the legacy `password` field is cleared, and the new stored
hash is recognised as current-scheme — the storage self-heals. -/
theorem C7_legacy_rehash (u : Auth.StoredUser) (record : Auth.FailedRecord)
    (now : Nat) (password h : String)
    (hopen : (Auth.is_email_locked record now).is_locked = false)
    (hstored : Auth.stored_hash_of u = some h)
    (hlegacy : looks_like_bcrypt h = false)
    (hmatch : h = password) :
    Auth.login_attempt (some u) password record now =
      (.success,
       some { u with password_hash := some (bcrypt_hash 12 password),
                     password := none },
       Auth.fresh_record) ∧
    looks_like_bcrypt (bcrypt_hash 12 password) = true := by
  refine ⟨?_, looks_like_bcrypt_bcrypt_hash 12 password⟩
  subst hmatch
  rw [Auth.login_attempt]
  simp [hopen, hstored, hlegacy]

/-- Witness for `C7_legacy_rehash`: an account whose stored credential is
the plaintext legacy value `OldPlain1!` logs in with that value, and the
saved document holds its bcrypt hash with the legacy field cleared. -/
theorem C7_legacy_rehash_witness :
    Auth.login_attempt
        (some { name := "Farmer", email := "farmer@example.com", phone := "",
                role := "farmer", password_hash := none,
                password := some "OldPlain1!" })
        "OldPlain1!" Auth.fresh_record 0 =
      (.success,
       some { name := "Farmer", email := "farmer@example.com", phone := "",
              role := "farmer",
              password_hash := some (bcrypt_hash 12 "OldPlain1!"),
              password := none },
       Auth.fresh_record) ∧
    looks_like_bcrypt (bcrypt_hash 12 "OldPlain1!") = true := by
  exact C7_legacy_rehash
    { name := "Farmer", email := "farmer@example.com", phone := "",
      role := "farmer", password_hash := none,
      password := some "OldPlain1!" }
    Auth.fresh_record 0 "OldPlain1!" "OldPlain1!" (by decide) (by decide)
    (by decide) rfl

/-- C8: whenever `NODE_ENV` is not `production`, a successful register-otp
request of the `AuthP2` variant answers the generic success message together
with a `debug_otp` field equal to the plaintext of the freshly generated
OTP. -/
theorem C8_debug_otp (existing : Option AuthP2.P2User)
    (name email phone role password otp : String) (now : Nat) (env : String)
    (hunv : ∀ u, existing = some u → u.email_verified = false)
    (henv : env ≠ "production") :
    (AuthP2.register_otp_p2 existing name email phone role password otp now
        env).1 =
      .accepted "Verification code has been sent to your email" (some otp) := by
  have henvb : (env == "production") = false := by
    simpa using henv
  cases existing with
  | none => rw [AuthP2.register_otp_p2]; simp [henvb]
  | some u =>
    rw [AuthP2.register_otp_p2]
    simp [hunv u rfl, henvb]

/-- Witness for `C8_debug_otp`: with `NODE_ENV = development` and a fresh
email, the success body carries `debug_otp = 482913`. -/
theorem C8_debug_otp_witness :
    (AuthP2.register_otp_p2 none "Farmer" "farmer@example.com" "" "farmer"
        "Abcd1234!" "482913" 0 "development").1 =
      .accepted "Verification code has been sent to your email"
        (some "482913") := by
  exact C8_debug_otp none "Farmer" "farmer@example.com" "" "farmer"
    "Abcd1234!" "482913" 0 "development" (by intro u hu; cases hu)
    (by decide)

/-- C9: a correct OTP is not replayable in the `Auth` (`SignupOtp`) verify
variant: after a successful verification the pending record is gone, and a
second call with the identical code at any later time answers the
no-pending-record/expired-equivalent error and leaves the database (in
particular the user collection) unchanged, so no duplicate account is
created. -/
theorem C9_otp_replay (db : Auth.VerifyDb) (email code : String)
    (now now2 : Nat)
    (hsucc : (Auth.verify_otp db email code now).1 = .success) :
    Auth.find_otp (Auth.verify_otp db email code now).2.otps email = none ∧
    Auth.verify_otp (Auth.verify_otp db email code now).2 email code now2 =
      (.invalidOrExpired, (Auth.verify_otp db email code now).2) := by
  have hotps : (Auth.verify_otp db email code now).2.otps =
      Auth.delete_otp db.otps email := by
    rw [Auth.verify_otp] at hsucc ⊢
    cases hfind : Auth.find_otp db.otps email with
    | none =>
      rw [hfind] at hsucc
      simp at hsucc
    | some rec =>
      rw [hfind] at hsucc
      by_cases hexp : rec.otp_expires_at < now
      · simp [hexp] at hsucc
      · by_cases hcode : (rec.otp_code != code) = true
        · simp [hexp, hcode] at hsucc
        · simp [hexp, hcode]
  have hnone : Auth.find_otp (Auth.verify_otp db email code now).2.otps
      email = none := by
    rw [hotps]
    exact find_otp_delete db.otps email
  refine ⟨hnone, ?_⟩
  rw [Auth.verify_otp, hnone]

/-- Witness for `C9_otp_replay` on the concrete pending registration of
`c9_db`: the first verification at time 0 succeeds, and the theorem yields
that the record is deleted and the replay at time 1 fails without touching
the state. -/
theorem C9_otp_replay_witness :
    (Auth.verify_otp c9_db "farmer@example.com" "482913" 0).1 =
      Auth.VerifyResult.success ∧
    Auth.find_otp
        (Auth.verify_otp c9_db "farmer@example.com" "482913" 0).2.otps
        "farmer@example.com" = none ∧
    Auth.verify_otp (Auth.verify_otp c9_db "farmer@example.com" "482913" 0).2
        "farmer@example.com" "482913" 1 =
      (.invalidOrExpired,
       (Auth.verify_otp c9_db "farmer@example.com" "482913" 0).2) := by
  have h := C9_otp_replay c9_db "farmer@example.com" "482913" 0 1 (by decide)
  exact ⟨by decide, h.1, h.2⟩

/-- C10: the claim is refuted on the help-route limiter: in a window opened
at time 0 with 5 requests already counted, the 6th request at time 0 is
denied with `retryAfterSeconds = 900` (the separate 15-minute block), not
with the remaining window time `WINDOW - (now - window_start)`, which would
be 600 seconds. -/
theorem C10_counterexample :
    (Help.check_rate_limit (some ⟨5, 0, 0⟩) 0).1 =
      { blocked := true, retryAfterSeconds := 900 } ∧
    (Help.check_rate_limit (some ⟨5, 0, 0⟩) 0).1.retryAfterSeconds ≠
      (Help.RATE_LIMIT_WINDOW_MS - (0 - 0)) / 1000 := by
  decide

/-- C10 (amended): the limiter keeps `(count, windowStart)` per key and
resets them when `now - windowStart > RATE_LIMIT_WINDOW_MS` before
incrementing; but when the incremented count exceeds
`RATE_LIMIT_MAX_REQUESTS` it denies, sets `blockedUntil = now +
RATE_LIMIT_BLOCK_MS`, and reports `retryAfterSeconds = 900` (the block
length, not the remaining window); while the block is active every further
hit is denied with the remaining block time. -/
theorem C10_rate_limiter :
    (∀ (s : Help.RateState) (now : Nat), s.blockedUntil = 0 →
        Help.RATE_LIMIT_WINDOW_MS < now - s.windowStart →
        Help.check_rate_limit (some s) now =
          ({ blocked := false, retryAfterSeconds := 0 },
           { count := 1, windowStart := now, blockedUntil := 0 })) ∧
    (∀ (s : Help.RateState) (now : Nat), s.blockedUntil = 0 →
        now - s.windowStart ≤ Help.RATE_LIMIT_WINDOW_MS →
        s.count + 1 ≤ Help.RATE_LIMIT_MAX_REQUESTS →
        Help.check_rate_limit (some s) now =
          ({ blocked := false, retryAfterSeconds := 0 },
           { count := s.count + 1, windowStart := s.windowStart,
             blockedUntil := 0 })) ∧
    (∀ (s : Help.RateState) (now : Nat), s.blockedUntil = 0 →
        now - s.windowStart ≤ Help.RATE_LIMIT_WINDOW_MS →
        Help.RATE_LIMIT_MAX_REQUESTS < s.count + 1 →
        Help.check_rate_limit (some s) now =
          ({ blocked := true, retryAfterSeconds := 900 },
           { count := s.count + 1, windowStart := s.windowStart,
             blockedUntil := now + 900000 })) ∧
    (∀ (s : Help.RateState) (now : Nat), s.blockedUntil ≠ 0 →
        now < s.blockedUntil →
        Help.check_rate_limit (some s) now =
          ({ blocked := true,
             retryAfterSeconds :=
               max 1 (ceil_div (s.blockedUntil - now) 1000) }, s)) := by
  refine ⟨?_, ?_, ?_, ?_⟩
  · intro s now hb hw
    rw [Help.check_rate_limit]
    simp [hb, hw, Help.RATE_LIMIT_MAX_REQUESTS]
  · intro s now hb hw hc
    rw [Help.check_rate_limit]
    have h1 : ¬ (Help.RATE_LIMIT_WINDOW_MS < now - s.windowStart) :=
      Nat.not_lt.mpr hw
    have h2 : ¬ (Help.RATE_LIMIT_MAX_REQUESTS < s.count + 1) :=
      Nat.not_lt.mpr hc
    simp [hb, h1, h2]
  · intro s now hb hw hc
    rw [Help.check_rate_limit]
    have h1 : ¬ (Help.RATE_LIMIT_WINDOW_MS < now - s.windowStart) :=
      Nat.not_lt.mpr hw
    simp [hb, h1, hc, Help.RATE_LIMIT_BLOCK_MS, ceil_div]
  · intro s now hb hlt
    rw [Help.check_rate_limit]
    simp only [Option.getD_some]
    rw [if_pos ⟨hb, hlt⟩]

/-- Witness for `C10_rate_limiter` at concrete states: a stale window is
reset and allowed; an in-window 3rd request is counted and allowed; an
in-window 6th request is denied with 900 seconds and a block until 900000;
a blocked key hit at time 100000 is denied with the remaining 800
seconds. -/
theorem C10_rate_limiter_witness :
    Help.check_rate_limit (some ⟨5, 0, 0⟩) 700000 =
      ({ blocked := false, retryAfterSeconds := 0 },
       { count := 1, windowStart := 700000, blockedUntil := 0 }) ∧
    Help.check_rate_limit (some ⟨2, 0, 0⟩) 400000 =
      ({ blocked := false, retryAfterSeconds := 0 },
       { count := 3, windowStart := 0, blockedUntil := 0 }) ∧
    Help.check_rate_limit (some ⟨5, 0, 0⟩) 0 =
      ({ blocked := true, retryAfterSeconds := 900 },
       { count := 6, windowStart := 0, blockedUntil := 900000 }) ∧
    Help.check_rate_limit (some ⟨6, 0, 900000⟩) 100000 =
      ({ blocked := true, retryAfterSeconds := 800 },
       ⟨6, 0, 900000⟩) := by
  refine ⟨?_, ?_, ?_, ?_⟩
  · exact C10_rate_limiter.1 ⟨5, 0, 0⟩ 700000 rfl (by decide)
  · exact C10_rate_limiter.2.1 ⟨2, 0, 0⟩ 400000 rfl (by decide) (by decide)
  · exact C10_rate_limiter.2.2.1 ⟨5, 0, 0⟩ 0 rfl (by decide) (by decide)
  · have h := C10_rate_limiter.2.2.2 ⟨6, 0, 900000⟩ 100000 (by decide)
      (by decide)
    simpa [ceil_div] using h

end AgriSpec
